import Mathlib

/-
Verification of the Microburbs demo dashboard proxy (app.py).

The upstream HTTP layer is modelled as an oracle `NetOracle` mapping a
request (url, headers, query params) to either an exception (`Except.error ()`,
modelling a raised `requests` network error such as a timeout) or an HTTP
response (status code, Content-Type header, body).  Response bodies are
modelled by the abstract parse outcome of `json.loads`: either not valid JSON,
or a JSON value in which non-finite numeric tokens (NaN / Infinity) are a
distinguished constructor.  The environment variable MICROBURBS_API_KEY is
modelled as an explicit `key` parameter threaded through the functions.
-/

namespace Microburbs

/-- A JSON value.  Finite numbers are modelled as integers (the claims only
involve integer payloads); `jnan` stands for any non-finite numeric token
(NaN, Infinity, -Infinity), which `json.dumps(..., allow_nan=False)` rejects. -/
inductive JsonVal where
| jnull : JsonVal
| jbool : Bool → JsonVal
| jnum : Int → JsonVal
| jnan : JsonVal
| jstr : String → JsonVal
| jarr : List JsonVal → JsonVal
| jobj : List (String × JsonVal) → JsonVal

/- `hasNonFinite`: does the value contain a non-finite numeric token anywhere? -/
mutual
def hasNonFinite : JsonVal → Bool
| .jnull => false
| .jbool _ => false
| .jnum _ => false
| .jnan => true
| .jstr _ => false
| .jarr xs => hasNonFiniteList xs
| .jobj fs => hasNonFiniteFields fs

def hasNonFiniteList : List JsonVal → Bool
| [] => false
| x :: xs => hasNonFinite x || hasNonFiniteList xs

def hasNonFiniteFields : List (String × JsonVal) → Bool
| [] => false
| (_, v) :: fs => hasNonFinite v || hasNonFiniteFields fs
end

/-- The body of an HTTP response, as seen by `json.loads`: either text that is
not valid JSON (so `json.loads` raises), or a parsed JSON value. -/
inductive Body where
| raw : Body
| json : JsonVal → Body

/-- Query parameters / header mappings: Python dicts of strings, modelled as
association lists preserving insertion order. -/
abbrev Params := List (String × String)

/-- Python dict assignment `m[k] = v`: overwrite in place if the key exists,
otherwise append (dicts preserve insertion order). -/
def setKV (m : Params) (k v : String) : Params :=
  if m.any (fun p => p.1 == k) then m.map (fun p => if p.1 == k then (k, v) else p)
  else m ++ [(k, v)]

/-- An outgoing HTTP request as issued by `requests.get`. -/
structure NetReq where
  url : String
  headers : Params
  params : Params
deriving DecidableEq, Repr

/-- An upstream HTTP response: status code, Content-Type header, body. -/
structure Resp where
  status : Nat
  content_type : String
  body : Body

/-- The network: either raises (error, e.g. unreachable host or timeout) or
returns a response. -/
abbrev NetOracle := NetReq → Except Unit Resp

/-- app.py line 15: the two fixed base URLs tried by the client. -/
def API_BASES : List String :=
  ["https://www.microburbs.com.au/report_generator/api",
   "https://www.microburbs.com.au/report_generator/api/sandbox"]

/-- The query-parameter dict built by `_call` (app.py lines 26-29):
a copy of `params`, with `access_token` added for the query auth style when
the API key is nonempty. -/
def buildQ (key : String) (params : Params) (style : String) : Params :=
  if style == "query" then (if key ≠ "" then setKV params "access_token" key else params)
  else params

/-- The header dict built by `_call` (app.py lines 25, 30-35). -/
def buildHeaders (key : String) (style : String) : Params :=
  let headers : Params := [("Accept", "application/json")]
  if style == "xapikey" then
    (if key ≠ "" then setKV headers "x-api-key" key else headers)
  else if style == "bearer" then
    (if key ≠ "" then setKV headers "Authorization" ("Bearer " ++ key) else headers)
  else headers

/-- app.py `_call` (lines 23-37): build url, headers and params for one attempt
and issue the request; a network exception propagates (`Except.error`). -/
def _call (net : NetOracle) (key path : String) (params : Params)
    (base style : String) : Except Unit (Resp × String × Params × Params) :=
  let url := base ++ path
  let q := buildQ key params style
  let headers := buildHeaders key style
  match net ⟨url, headers, q⟩ with
  | .error e => .error e
  | .ok r => .ok (r, url, q, headers)

/-- app.py `_strict_json` (lines 39-42): `json.loads` then `json.dumps`
with `allow_nan=False`; `none` models the exception raised when the text is
not JSON or when the value contains a non-finite number. -/
def _strict_json (body : Body) : Option JsonVal :=
  match body with
  | .raw => none
  | .json v => if hasNonFinite v then none else some v

/-- Is `needle` a contiguous sublist of `hay`? (Python's `in` on strings.) -/
def isInfixList (needle : List Char) : List Char → Bool
| [] => needle.isEmpty
| c :: t => needle.isPrefixOf (c :: t) || isInfixList needle t

/-- Python `"application/json" in ct.lower()` (app.py line 54), on the
character list of the Content-Type header. -/
def containsJsonCT (ct : String) : Bool :=
  isInfixList "application/json".toList (ct.toList.map Char.toLower)

/-- The attempt trace dict built on each iteration (app.py lines 51-52). -/
structure Trace where
  status : Nat
  url : String
  style : String
  params : Params
  content_type : String
deriving DecidableEq, Repr

/-- The dict returned by `_first_json`: `{"ok": ..., "data": ..., "trace": ...}`.
`trace = none` models the `{}` returned when no attempt was made. -/
structure FJResult where
  ok : Bool
  data : JsonVal
  trace : Option Trace

/-- app.py line 46: `[(b, s) for b in API_BASES for s in ("query","xapikey","bearer")]`. -/
def attemptsOrder : List (String × String) :=
  API_BASES.flatMap (fun b => [(b, "query"), (b, "xapikey"), (b, "bearer")])

/-- The flattened nested loop of `_first_json` (lines 48-49): variants in list
order (outer), base × style combinations in `attemptsOrder` order (inner). -/
def candidates (variants : List Params) : List (Params × String × String) :=
  variants.flatMap (fun pv => attemptsOrder.map (fun bs => (pv, bs.1, bs.2)))

/-- The loop body of `_first_json` (app.py lines 48-57), with the `last` trace
threaded explicitly.  A network exception from `_call` propagates (it is raised
outside the `try:` block); an exception from `_strict_json` inside the `try:`
hits `except Exception: continue`. -/
def _first_json_go (net : NetOracle) (key path : String) :
    List (Params × String × String) → Option Trace → Except Unit FJResult
| [], last => .ok ⟨false, .jobj [], last⟩
| (pv, base, style) :: rest, _ =>
  match _call net key path pv base style with
  | .error e => .error e
  | .ok (r, url, q, _) =>
    let cur : Trace := ⟨r.status, url, style, q, r.content_type⟩
    if r.status < 300 ∧ containsJsonCT r.content_type = true then
      match _strict_json r.body with
      | some v => .ok ⟨true, v, some cur⟩
      | none => _first_json_go net key path rest (some cur)
    else
      _first_json_go net key path rest (some cur)

/-- app.py `_first_json` (lines 44-58). -/
def _first_json (net : NetOracle) (key path : String) (variants : List Params) :
    Except Unit FJResult :=
  _first_json_go net key path (candidates variants) none

/-- One attempt of the loop, packaged for specification: the strict-JSON data
if the attempt qualifies and re-encodes (`some v`), otherwise `none`, together
with the trace recorded for the attempt; `Except.error` when the request raised. -/
def runAttempt (net : NetOracle) (key path : String)
    (c : Params × String × String) : Except Unit (Option JsonVal × Trace) :=
  match _call net key path c.1 c.2.1 c.2.2 with
  | .error e => .error e
  | .ok (r, url, q, _) =>
    let t : Trace := ⟨r.status, url, c.2.2, q, r.content_type⟩
    if r.status < 300 ∧ containsJsonCT r.content_type = true then
      .ok (_strict_json r.body, t)
    else
      .ok (none, t)

/-- The `last` trace after a run of soft-failing attempts, threaded as in the
loop. -/
def lastTrace (tr : Params × String × String → Trace) :
    List (Params × String × String) → Option Trace → Option Trace
| [], last => last
| c :: cs, _ => lastTrace tr cs (some (tr c))

/-- JSON serialization of the trace dict (`json.dumps` of the envelope). -/
def traceToJson : Option Trace → JsonVal
| none => .jobj []
| some t => .jobj [("status", .jnum t.status), ("url", .jstr t.url),
    ("style", .jstr t.style),
    ("params", .jobj (t.params.map (fun p => (p.1, JsonVal.jstr p.2)))),
    ("content_type", .jstr t.content_type)]

/-- An HTTP response produced by the Flask facade. -/
structure HttpResp where
  status : Nat
  content_type : String
  body : JsonVal

/-- The 200 envelope built by both endpoints (app.py lines 220-221, 229-230):
`{"__data": data or {}, "__trace": trace}`. -/
def envelope (result : FJResult) : HttpResp :=
  ⟨200, "application/json",
   .jobj [("__data", if result.ok then result.data else .jobj []),
          ("__trace", traceToJson result.trace)]⟩

/-- Flask `request.args.get(k, dflt)`: first value for the key, or default. -/
def getArg (args : Params) (k dflt : String) : String :=
  (args.lookup k).getD dflt

/-- An ASCII whitespace character (the characters Python's `str.strip()`
removes, restricted to ASCII). -/
def isSpaceChar (c : Char) : Bool :=
  c == ' ' || c == '\t' || c == '\n' || c == '\r' || c == '\x0b' || c == '\x0c'

/-- Python `str.strip()`: remove leading and trailing whitespace. -/
def pyStrip (s : String) : String :=
  ⟨((s.toList.dropWhile isSpaceChar).reverse.dropWhile isSpaceChar).reverse⟩

/-- The variant list built by the suburb endpoint (app.py lines 215-218). -/
def suburb_variants (suburb state : String) : List Params :=
  let variants : List Params := [[("suburb", suburb)]]
  if state ≠ "" then
    variants ++ [[("suburb", suburb), ("state", state)],
                 [("suburb", suburb), ("state_code", state)]]
  else variants

/-- app.py `suburb_market` (lines 209-221).  A network exception escaping
`_first_json` propagates out of the handler (`Except.error`, Flask 500). -/
def suburb_market (net : NetOracle) (key : String) (args : Params) :
    Except Unit HttpResp :=
  let suburb := pyStrip (getArg args "suburb" "")
  let state := pyStrip (getArg args "state" "")
  if suburb = "" then
    .ok ⟨400, "application/json", .jobj [("error", .jstr "suburb is required")]⟩
  else
    match _first_json net key "/suburb/market" (suburb_variants suburb state) with
    | .error e => .error e
    | .ok result => .ok (envelope result)

/-- app.py `property_market` (lines 223-230). -/
def property_market (net : NetOracle) (key : String) (args : Params) :
    Except Unit HttpResp :=
  let pid := pyStrip (getArg args "id" "")
  if pid = "" then
    .ok ⟨400, "application/json", .jobj [("error", .jstr "id is required")]⟩
  else
    match _first_json net key "/property/market" [[("id", pid)]] with
    | .error e => .error e
    | .ok result => .ok (envelope result)

/-! Concrete upstream oracles used as test fixtures for witnesses and
counterexamples. -/

/-- An upstream that always answers 404 with an HTML error page. -/
def htmlNet : NetOracle := fun _ => .ok ⟨404, "text/html", .raw⟩

/-- An upstream that is unreachable: every request raises. -/
def raiseNet : NetOracle := fun _ => .error ()

/-- An upstream that always answers JSON containing a literal NaN. -/
def nanNet : NetOracle := fun _ => .ok ⟨200, "application/json", .json .jnan⟩

/-- An upstream that answers NaN-laden JSON to requests authenticated by the
`access_token` query parameter and clean JSON otherwise. -/
def netC1 : NetOracle := fun rq =>
  if rq.params.any (fun p => p.1 == "access_token") then
    .ok ⟨200, "application/json", .json .jnan⟩
  else
    .ok ⟨200, "application/json", .json (.jobj [("a", .jnum 1)])⟩

/-- The payload of the end-to-end test in the spec. -/
def summaryVal : JsonVal := .jobj [("summary", .jobj [("median_price", .jnum 750000)])]

/-- An upstream that always answers the end-to-end payload as JSON. -/
def belmontNet : NetOracle := fun _ => .ok ⟨200, "application/json", .json summaryVal⟩

/-- The trace recorded for candidate `c` when the upstream answers `r`. -/
def okTrace (key path : String) (r : Resp) (c : Params × String × String) : Trace :=
  ⟨r.status, c.2.1 ++ path, c.2.2, buildQ key c.1 c.2.2, r.content_type⟩

/-- The result of the upstream client on `belmontNet` for a single bare
variant, used to witness the strict-data invariant. -/
def belmontFJ : FJResult :=
  ⟨true, summaryVal,
   some ⟨200, "https://www.microburbs.com.au/report_generator/api/suburb/market",
     "query", [("suburb", "A")], "application/json"⟩⟩

/-! Helper lemmas about the loop of `_first_json`. -/

/-- One step of the loop, expressed through `runAttempt`. -/
theorem first_json_go_cons (net : NetOracle) (key path : String)
    (c : Params × String × String) (cs : List (Params × String × String))
    (last : Option Trace) :
    _first_json_go net key path (c :: cs) last =
      match runAttempt net key path c with
      | .error e => .error e
      | .ok (some v, t) => .ok ⟨true, v, some t⟩
      | .ok (none, t) => _first_json_go net key path cs (some t) := by
  obtain ⟨pv, base, style⟩ := c
  cases hcall : _call net key path pv base style with
  | error e => simp [_first_json_go, runAttempt, hcall]
  | ok x =>
    obtain ⟨r, url, q, hd⟩ := x
    by_cases hc : r.status < 300 ∧ containsJsonCT r.content_type = true
    · cases hsj : _strict_json r.body <;>
        simp [_first_json_go, runAttempt, hcall, hc, hsj]
    · simp [_first_json_go, runAttempt, hcall, hc]

/-- A run of soft-failing attempts only advances the `last` trace. -/
theorem go_soft_fail_skip (net : NetOracle) (key path : String)
    (tr : Params × String × String → Trace) :
    ∀ (done rest : List (Params × String × String)) (last : Option Trace),
    (∀ d ∈ done, runAttempt net key path d = .ok (none, tr d)) →
    _first_json_go net key path (done ++ rest) last =
      _first_json_go net key path rest (lastTrace tr done last) := by
  intro done
  induction done with
  | nil => intro rest last _; rfl
  | cons d ds ih =>
    intro rest last h
    rw [List.cons_append, first_json_go_cons, h d (List.mem_cons_self d ds)]
    exact ih rest (some (tr d)) (fun x hx => h x (List.mem_cons_of_mem d hx))

/-- Threading `none` through soft failures yields the last attempt's trace. -/
theorem lastTrace_of_ne_nil (tr : Params × String × String → Trace) :
    ∀ (cs : List (Params × String × String)) (last : Option Trace), cs ≠ [] →
    lastTrace tr cs last = (cs.getLast?).map tr := by
  intro cs
  induction cs with
  | nil => intro last h; exact absurd rfl h
  | cons c cs' ih =>
    intro last _
    cases cs' with
    | nil => rfl
    | cons b l =>
      show lastTrace tr (b :: l) (some (tr c)) = _
      rw [ih (some (tr c)) (by simp), List.getLast?_cons_cons]

/-- `lastTrace` starting from `none` computes the last attempt's trace. -/
theorem lastTrace_none (tr : Params × String × String → Trace) :
    ∀ cs : List (Params × String × String),
    lastTrace tr cs none = (cs.getLast?).map tr := by
  intro cs
  cases cs with
  | nil => rfl
  | cons c cs' => exact lastTrace_of_ne_nil tr (c :: cs') none (by simp)

/-- If every attempted combination soft-fails, the client returns the failure
marker with the last attempt's trace (or none when no attempt was made). -/
theorem first_json_fail_core (net : NetOracle) (key path : String)
    (variants : List Params) (tr : Params × String × String → Trace)
    (h : ∀ c ∈ candidates variants, runAttempt net key path c = .ok (none, tr c)) :
    _first_json net key path variants =
      .ok ⟨false, .jobj [], ((candidates variants).getLast?).map tr⟩ := by
  unfold _first_json
  have h2 := go_soft_fail_skip net key path tr (candidates variants) [] none h
  rw [List.append_nil] at h2
  rw [h2]
  simp only [_first_json_go]
  rw [lastTrace_none]

/-- Strict re-encoding only succeeds on values without non-finite tokens. -/
theorem strict_json_some (b : Body) (v : JsonVal)
    (h : _strict_json b = some v) : hasNonFinite v = false := by
  cases b with
  | raw => simp [_strict_json] at h
  | json w =>
    by_cases hw : hasNonFinite w
    · simp [_strict_json, hw] at h
    · simp [_strict_json, hw] at h
      rw [← h]
      exact Bool.not_eq_true _ |>.mp hw

/-- What one attempt does when the network returns a response. -/
theorem runAttempt_eq (net : NetOracle) (key path : String)
    (c : Params × String × String) (r : Resp)
    (h : net ⟨c.2.1 ++ path, buildHeaders key c.2.2, buildQ key c.1 c.2.2⟩ = .ok r) :
    runAttempt net key path c =
      .ok ((if r.status < 300 ∧ containsJsonCT r.content_type = true
            then _strict_json r.body else none), okTrace key path r c) := by
  obtain ⟨pv, base, style⟩ := c
  by_cases hc : r.status < 300 ∧ containsJsonCT r.content_type = true
  · simp [runAttempt, _call, okTrace, h, hc]
  · simp [runAttempt, _call, okTrace, h, hc]

/-- What one attempt does when the network raises. -/
theorem runAttempt_raises (net : NetOracle) (key path : String)
    (c : Params × String × String)
    (h : net ⟨c.2.1 ++ path, buildHeaders key c.2.2, buildQ key c.1 c.2.2⟩ = .error ()) :
    runAttempt net key path c = .error () := by
  obtain ⟨pv, base, style⟩ := c
  simp [runAttempt, _call, h]

/-- A qualifying attempt that returns data returns strictly re-encoded data. -/
theorem runAttempt_some_strict (net : NetOracle) (key path : String)
    (c : Params × String × String) (v : JsonVal) (t : Trace)
    (h : runAttempt net key path c = .ok (some v, t)) : hasNonFinite v = false := by
  cases hn : net ⟨c.2.1 ++ path, buildHeaders key c.2.2, buildQ key c.1 c.2.2⟩ with
  | error e =>
    cases e
    rw [runAttempt_raises net key path c hn] at h
    cases h
  | ok r =>
    rw [runAttempt_eq net key path c r hn] at h
    by_cases hc : r.status < 300 ∧ containsJsonCT r.content_type = true
    · rw [if_pos hc] at h
      simp only [Except.ok.injEq, Prod.mk.injEq] at h
      exact strict_json_some _ _ h.1
    · rw [if_neg hc] at h
      simp at h

/-- On a total network (no request raises), every attempt yields an outcome. -/
theorem runAttempt_total (net : NetOracle) (key path : String)
    (hnet : ∀ rq, net rq ≠ .error ()) (c : Params × String × String) :
    ∃ o t, runAttempt net key path c = .ok (o, t) := by
  cases hn : net ⟨c.2.1 ++ path, buildHeaders key c.2.2, buildQ key c.1 c.2.2⟩ with
  | error e => cases e; exact absurd hn (hnet _)
  | ok r => exact ⟨_, _, runAttempt_eq net key path c r hn⟩

/-- On a total network the loop always returns a result dict. -/
theorem go_total (net : NetOracle) (key path : String)
    (hnet : ∀ rq, net rq ≠ .error ()) :
    ∀ (cs : List (Params × String × String)) (last : Option Trace),
    ∃ fr, _first_json_go net key path cs last = .ok fr := by
  intro cs
  induction cs with
  | nil => intro last; exact ⟨_, rfl⟩
  | cons c cs' ih =>
    intro last
    obtain ⟨o, t, hra⟩ := runAttempt_total net key path hnet c
    rw [first_json_go_cons, hra]
    cases o with
    | none => exact ih (some t)
    | some v => exact ⟨_, rfl⟩

/-- On a total network `_first_json` returns a result dict. -/
theorem first_json_total (net : NetOracle) (key path : String)
    (variants : List Params) (hnet : ∀ rq, net rq ≠ .error ()) :
    ∃ fr, _first_json net key path variants = .ok fr :=
  go_total net key path hnet (candidates variants) none

/-- Strict re-encoding fails on any value containing a non-finite token. -/
theorem strict_json_nan (v : JsonVal) (hv : hasNonFinite v = true) :
    _strict_json (.json v) = none := by
  simp [_strict_json, hv]

/-- Any successful run of the loop carries strictly re-encoded data. -/
theorem go_strict (net : NetOracle) (key path : String) :
    ∀ (cs : List (Params × String × String)) (last : Option Trace) (fr : FJResult),
    _first_json_go net key path cs last = .ok fr → fr.ok = true →
    hasNonFinite fr.data = false := by
  intro cs
  induction cs with
  | nil =>
    intro last fr h hok
    unfold _first_json_go at h
    cases h
    cases hok
  | cons c cs' ih =>
    intro last fr h hok
    rw [first_json_go_cons] at h
    cases hra : runAttempt net key path c with
    | error e => rw [hra] at h; cases h
    | ok x =>
      obtain ⟨o, t⟩ := x
      rw [hra] at h
      cases o with
      | none => exact ih (some t) fr h hok
      | some v =>
        cases h
        exact runAttempt_some_strict net key path c v t hra

/-! Claim theorems. -/

/-- C1, counterexample: the claim says the client returns the first response
with status < 300 and a JSON content type, with that attempt's data and trace.
On `netC1` with key "k" the very first attempted combination (bare variant,
first base URL, query auth style) receives exactly such a response (status 200,
Content-Type `application/json`) — first conjunct — yet the client returns the
data and trace of the second combination (x-api-key style), because the first
body fails strict re-encoding. -/
theorem first_json_skips_unparsable_qualifying_response :
    _call netC1 "k" "/p" [("x", "1")]
        "https://www.microburbs.com.au/report_generator/api" "query" =
      .ok (⟨200, "application/json", .json .jnan⟩,
        "https://www.microburbs.com.au/report_generator/api/p",
        [("x", "1"), ("access_token", "k")], [("Accept", "application/json")]) ∧
    _first_json netC1 "k" "/p" [[("x", "1")]] =
      .ok ⟨true, .jobj [("a", .jnum 1)],
        some ⟨200, "https://www.microburbs.com.au/report_generator/api/p",
          "xapikey", [("x", "1")], "application/json"⟩⟩ :=
  ⟨rfl, rfl⟩

/-- C1 (amended): for every endpoint path and variant list, the attempts are
made in the order of `candidates` (variants outer, the two base URLs × the
three auth styles query/xapikey/bearer inner), and the client returns the
first attempt whose response has status < 300, a Content-Type containing
"application/json", AND a body that re-encodes as strict JSON, with that
attempt's data and trace. -/
theorem first_json_returns_first_strict_success
    (net : NetOracle) (key path : String) (variants : List Params)
    (done rest : List (Params × String × String)) (c : Params × String × String)
    (tr : Params × String × String → Trace) (v : JsonVal) (t : Trace)
    (hsplit : candidates variants = done ++ c :: rest)
    (hdone : ∀ d ∈ done, runAttempt net key path d = .ok (none, tr d))
    (hc : runAttempt net key path c = .ok (some v, t)) :
    _first_json net key path variants = .ok ⟨true, v, some t⟩ := by
  unfold _first_json
  rw [hsplit, go_soft_fail_skip net key path tr done (c :: rest) none hdone,
    first_json_go_cons, hc]

/-- C1 witness: on `netC1` the first combination soft-fails (NaN body) and the
second combination is the first strict success; the client returns its data
and trace. -/
theorem first_json_returns_first_strict_success_witness :
    _first_json netC1 "k" "/p" [[("x", "1")]] =
      .ok ⟨true, .jobj [("a", .jnum 1)],
        some ⟨200, "https://www.microburbs.com.au/report_generator/api/p",
          "xapikey", [("x", "1")], "application/json"⟩⟩ :=
  first_json_returns_first_strict_success netC1 "k" "/p" [[("x", "1")]]
    [([("x", "1")], "https://www.microburbs.com.au/report_generator/api", "query")]
    [([("x", "1")], "https://www.microburbs.com.au/report_generator/api", "bearer"),
     ([("x", "1")], "https://www.microburbs.com.au/report_generator/api/sandbox", "query"),
     ([("x", "1")], "https://www.microburbs.com.au/report_generator/api/sandbox", "xapikey"),
     ([("x", "1")], "https://www.microburbs.com.au/report_generator/api/sandbox", "bearer")]
    ([("x", "1")], "https://www.microburbs.com.au/report_generator/api", "xapikey")
    (fun _ => ⟨200, "https://www.microburbs.com.au/report_generator/api/p", "query",
      [("x", "1"), ("access_token", "k")], "application/json"⟩)
    (.jobj [("a", .jnum 1)])
    ⟨200, "https://www.microburbs.com.au/report_generator/api/p", "xapikey",
      [("x", "1")], "application/json"⟩
    rfl
    (by intro d hd; rw [List.mem_singleton] at hd; subst hd; rfl)
    rfl

/-- C2, counterexample: the claim says a network error on one combination is a
soft failure and the facade still responds 200. With an unreachable upstream
the suburb endpoint instead propagates the exception (`_call` is outside the
`try:` block), so no 200 envelope is produced. -/
theorem network_error_escapes_facade :
    suburb_market raiseNet "" [("suburb", "X")] = .error () := rfl

/-- C2 (amended): only exceptions raised while checking / strictly re-encoding
a response body are soft failures that move to the next combination; a network
error raised while issuing a request propagates out of `_first_json` (and so
out of the facade as a fatal error), aborting the remaining combinations. -/
theorem network_error_propagates_after_soft_failures
    (net : NetOracle) (key path : String) (variants : List Params)
    (done rest : List (Params × String × String)) (c : Params × String × String)
    (tr : Params × String × String → Trace)
    (hsplit : candidates variants = done ++ c :: rest)
    (hdone : ∀ d ∈ done, runAttempt net key path d = .ok (none, tr d))
    (hc : runAttempt net key path c = .error ()) :
    _first_json net key path variants = .error () := by
  unfold _first_json
  rw [hsplit, go_soft_fail_skip net key path tr done (c :: rest) none hdone,
    first_json_go_cons, hc]

/-- C2 witness: with an unreachable upstream the exception propagates from the
first combination. -/
theorem network_error_propagates_witness :
    _first_json raiseNet "" "/property/market" [[("id", "G1")]] = .error () :=
  network_error_propagates_after_soft_failures raiseNet "" "/property/market"
    [[("id", "G1")]] []
    [([("id", "G1")], "https://www.microburbs.com.au/report_generator/api", "xapikey"),
     ([("id", "G1")], "https://www.microburbs.com.au/report_generator/api", "bearer"),
     ([("id", "G1")], "https://www.microburbs.com.au/report_generator/api/sandbox", "query"),
     ([("id", "G1")], "https://www.microburbs.com.au/report_generator/api/sandbox", "xapikey"),
     ([("id", "G1")], "https://www.microburbs.com.au/report_generator/api/sandbox", "bearer")]
    ([("id", "G1")], "https://www.microburbs.com.au/report_generator/api", "query")
    (fun _ => ⟨0, "", "", [], ""⟩)
    rfl
    (by intro d hd; exact absurd hd (List.not_mem_nil d))
    rfl

/-- C3: if every attempted combination soft-fails (no response qualifies and
strictly re-encodes), the client returns the failure marker with empty data
and the very last attempted combination's trace, or an empty trace when no
attempt was made (empty variant list makes `candidates` empty, so the
`getLast?` below is `none`). -/
theorem first_json_failure_returns_last_trace
    (net : NetOracle) (key path : String) (variants : List Params)
    (tr : Params × String × String → Trace)
    (h : ∀ c ∈ candidates variants, runAttempt net key path c = .ok (none, tr c)) :
    _first_json net key path variants =
      .ok ⟨false, .jobj [], ((candidates variants).getLast?).map tr⟩ :=
  first_json_fail_core net key path variants tr h

/-- C3 witness: an upstream that always answers an HTML 404 makes every
combination soft-fail; the trace returned is the last combination's. -/
theorem first_json_failure_returns_last_trace_witness :
    _first_json htmlNet "" "/p" [[("a", "b")]] =
      .ok ⟨false, .jobj [],
        ((candidates [[("a", "b")]]).getLast?).map
          (okTrace "" "/p" ⟨404, "text/html", .raw⟩)⟩ :=
  first_json_failure_returns_last_trace htmlNet "" "/p" [[("a", "b")]]
    (okTrace "" "/p" ⟨404, "text/html", .raw⟩)
    (by intro c hc; fin_cases hc <;> rfl)

/-- C4, counterexample: the claim says both endpoints respond 200 with the
envelope even on total upstream failure; with an unreachable upstream
(`raiseNet`) the property endpoint instead propagates the exception. -/
theorem facade_raises_on_network_error :
    property_market raiseNet "" [("id", "G1")] = .error () := rfl

/-- C4 (amended): provided every upstream attempt returns an HTTP response
(no request raises a network error), the suburb endpoint (with a suburb
supplied) and the property endpoint (with an id supplied) respond 200 with
the Response Envelope, and on total upstream failure (`fr.ok = false`) the
`__data` field is the empty object. -/
theorem facade_envelope_when_net_total (net : NetOracle) (key : String)
    (argsS argsP : Params)
    (hnet : ∀ rq, net rq ≠ .error ())
    (hs : pyStrip (getArg argsS "suburb" "") ≠ "")
    (hp : pyStrip (getArg argsP "id" "") ≠ "") :
    (∃ fr, suburb_market net key argsS = .ok (envelope fr) ∧
      (envelope fr).status = 200 ∧
      (fr.ok = false → (envelope fr).body =
        .jobj [("__data", .jobj []), ("__trace", traceToJson fr.trace)])) ∧
    (∃ fr, property_market net key argsP = .ok (envelope fr) ∧
      (envelope fr).status = 200 ∧
      (fr.ok = false → (envelope fr).body =
        .jobj [("__data", .jobj []), ("__trace", traceToJson fr.trace)])) := by
  constructor
  · obtain ⟨fr, hfr⟩ := first_json_total net key "/suburb/market"
      (suburb_variants (pyStrip (getArg argsS "suburb" ""))
        (pyStrip (getArg argsS "state" ""))) hnet
    refine ⟨fr, ?_, rfl, ?_⟩
    · simp only [suburb_market]
      rw [if_neg hs, hfr]
    · intro hok
      simp [envelope, hok]
  · obtain ⟨fr, hfr⟩ := first_json_total net key "/property/market"
      [[("id", pyStrip (getArg argsP "id" ""))]] hnet
    refine ⟨fr, ?_, rfl, ?_⟩
    · simp only [property_market]
      rw [if_neg hp, hfr]
    · intro hok
      simp [envelope, hok]

/-- C4 witness: on an upstream that always answers HTML 404 (total upstream
failure, but every request returns), both endpoints produce the envelope. -/
theorem facade_envelope_when_net_total_witness :
    (∃ fr, suburb_market htmlNet "" [("suburb", "A")] = .ok (envelope fr) ∧
      (envelope fr).status = 200 ∧
      (fr.ok = false → (envelope fr).body =
        .jobj [("__data", .jobj []), ("__trace", traceToJson fr.trace)])) ∧
    (∃ fr, property_market htmlNet "" [("id", "B")] = .ok (envelope fr) ∧
      (envelope fr).status = 200 ∧
      (fr.ok = false → (envelope fr).body =
        .jobj [("__data", .jobj []), ("__trace", traceToJson fr.trace)])) :=
  facade_envelope_when_net_total htmlNet "" [("suburb", "A")] [("id", "B")]
    (fun _ h => Except.noConfusion h) (by decide) (by decide)

/-- C5: when the (stripped) "suburb" parameter is missing or blank the suburb
endpoint responds 400 with an error body, and likewise the property endpoint
for "id"; the responses do not depend on the upstream oracle or the API key,
so no upstream attempt is made. -/
theorem missing_param_returns_400 (net net' : NetOracle) (key key' : String)
    (argsS argsP : Params)
    (hs : pyStrip (getArg argsS "suburb" "") = "")
    (hp : pyStrip (getArg argsP "id" "") = "") :
    suburb_market net key argsS =
      .ok ⟨400, "application/json", .jobj [("error", .jstr "suburb is required")]⟩ ∧
    property_market net key argsP =
      .ok ⟨400, "application/json", .jobj [("error", .jstr "id is required")]⟩ ∧
    suburb_market net key argsS = suburb_market net' key' argsS ∧
    property_market net key argsP = property_market net' key' argsP := by
  refine ⟨?_, ?_, ?_, ?_⟩ <;> simp [suburb_market, property_market, hs, hp]

/-- C5 witness: requests with no query parameters at all get the 400 bodies,
identically for two different upstream oracles and keys. -/
theorem missing_param_returns_400_witness :
    suburb_market htmlNet "" [] =
      .ok ⟨400, "application/json", .jobj [("error", .jstr "suburb is required")]⟩ ∧
    property_market htmlNet "" [] =
      .ok ⟨400, "application/json", .jobj [("error", .jstr "id is required")]⟩ ∧
    suburb_market htmlNet "" [] = suburb_market raiseNet "k" [] ∧
    property_market htmlNet "" [] = property_market raiseNet "k" [] :=
  missing_param_returns_400 htmlNet raiseNet "" "k" [] [] rfl rfl

/-- C6: if the upstream always answers a qualifying JSON response whose body
contains a non-finite numeric token (literal NaN), the client fails to produce
usable data: it returns empty data with the last attempt's trace preserved. -/
theorem nan_payload_soft_failure (net : NetOracle) (key path : String)
    (variants : List Params) (v : JsonVal)
    (hv : hasNonFinite v = true)
    (hnet : ∀ rq, net rq = .ok ⟨200, "application/json", .json v⟩) :
    _first_json net key path variants =
      .ok ⟨false, .jobj [],
        ((candidates variants).getLast?).map
          (okTrace key path ⟨200, "application/json", .json v⟩)⟩ := by
  apply first_json_fail_core
  intro c hc
  have hct : containsJsonCT "application/json" = true := by decide
  rw [runAttempt_eq net key path c ⟨200, "application/json", .json v⟩ (hnet _)]
  simp [hct, strict_json_nan v hv]

/-- C6 witness: an upstream answering `NaN` as JSON yields empty data and the
last combination's trace. -/
theorem nan_payload_soft_failure_witness :
    _first_json nanNet "" "/suburb/market" [[("suburb", "A")]] =
      .ok ⟨false, .jobj [],
        ((candidates [[("suburb", "A")]]).getLast?).map
          (okTrace "" "/suburb/market" ⟨200, "application/json", .json .jnan⟩)⟩ :=
  nan_payload_soft_failure nanNet "" "/suburb/market" [[("suburb", "A")]]
    .jnan rfl (fun _ => rfl)

/-- C7: end-to-end: for suburb "Belmont North", state "NSW", with an upstream
returning `{"summary":{"median_price":750000}}` as JSON on the bare-suburb
variant (the first attempted combination, with an empty API key), the suburb
endpoint responds 200 with that object as `__data` and a `__trace` whose
params are exactly `{"suburb":"Belmont North"}`. -/
theorem belmont_north_end_to_end :
    suburb_market belmontNet "" [("suburb", "Belmont North"), ("state", "NSW")] =
      .ok ⟨200, "application/json",
        .jobj [("__data", .jobj [("summary", .jobj [("median_price", .jnum 750000)])]),
               ("__trace", .jobj [("status", .jnum 200),
                 ("url", .jstr "https://www.microburbs.com.au/report_generator/api/suburb/market"),
                 ("style", .jstr "query"),
                 ("params", .jobj [("suburb", .jstr "Belmont North")]),
                 ("content_type", .jstr "application/json")])]⟩ := rfl

/-- C8: every successful result of the upstream client carries data that
survived strict re-encoding: it contains no non-finite numeric values. -/
theorem success_data_has_no_nonfinite (net : NetOracle) (key path : String)
    (variants : List Params) (fr : FJResult)
    (h : _first_json net key path variants = .ok fr) (hok : fr.ok = true) :
    hasNonFinite fr.data = false :=
  go_strict net key path (candidates variants) none fr h hok

/-- C8 witness: the successful Belmont result carries strict data. -/
theorem success_data_has_no_nonfinite_witness :
    hasNonFinite belmontFJ.data = false :=
  success_data_has_no_nonfinite belmontNet "" "/suburb/market"
    [[("suburb", "A")]] belmontFJ rfl rfl

/-- C9: the suburb endpoint builds exactly the bare variant when the stripped
state is empty, and exactly the three variants (bare; +state; +state_code) in
order when it is nonempty; and each variant is tried against the full
cross-product of the two base URLs and three auth styles, in that order. -/
theorem suburb_variant_lists (suburb state : String) :
    (state = "" → suburb_variants suburb state = [[("suburb", suburb)]]) ∧
    (state ≠ "" → suburb_variants suburb state =
      [[("suburb", suburb)],
       [("suburb", suburb), ("state", state)],
       [("suburb", suburb), ("state_code", state)]]) ∧
    candidates (suburb_variants suburb state) =
      (suburb_variants suburb state).flatMap (fun pv =>
        [(pv, "https://www.microburbs.com.au/report_generator/api", "query"),
         (pv, "https://www.microburbs.com.au/report_generator/api", "xapikey"),
         (pv, "https://www.microburbs.com.au/report_generator/api", "bearer"),
         (pv, "https://www.microburbs.com.au/report_generator/api/sandbox", "query"),
         (pv, "https://www.microburbs.com.au/report_generator/api/sandbox", "xapikey"),
         (pv, "https://www.microburbs.com.au/report_generator/api/sandbox", "bearer")]) := by
  refine ⟨fun h => by simp [suburb_variants, h], fun h => by simp [suburb_variants, h], ?_⟩
  unfold candidates
  congr 1

/-- C9 witness: with a nonempty state the three variants appear in order. -/
theorem suburb_variant_lists_witness :
    suburb_variants "Belmont North" "NSW" =
      [[("suburb", "Belmont North")],
       [("suburb", "Belmont North"), ("state", "NSW")],
       [("suburb", "Belmont North"), ("state_code", "NSW")]] :=
  (suburb_variant_lists "Belmont North" "NSW").2.1 (by decide)

/-- C10: attempts never mutate the caller's variants: the variant component of
every candidate is the original mapping from the variant list (each variant
occurs verbatim six times, once per base × style combination), and for the two
header auth styles the query parameters sent are exactly the original variant
— the `access_token` added for the query style is built on a copy and does not
leak into later attempts. -/
theorem attempt_params_from_original_variant (net : NetOracle) (key path : String)
    (variants : List Params) (pv : Params) (base style : String)
    (r : Resp) (url : String) (q hd : Params)
    (hcall : _call net key path pv base style = .ok (r, url, q, hd))
    (hstyle : style ≠ "query") :
    ((candidates variants).map Prod.fst =
      variants.flatMap (fun v => List.replicate 6 v)) ∧ q = pv := by
  constructor
  · unfold candidates
    rw [List.map_flatMap]
    congr 1
  · simp only [_call] at hcall
    cases hn : net ⟨base ++ path, buildHeaders key style, buildQ key pv style⟩ with
    | error e => rw [hn] at hcall; cases hcall
    | ok r' =>
      rw [hn] at hcall
      simp only [Except.ok.injEq, Prod.mk.injEq] at hcall
      obtain ⟨-, -, hq, -⟩ := hcall
      rw [← hq]
      simp [buildQ, hstyle]

/-- C10 witness: an x-api-key attempt with a nonempty key sends exactly the
original variant as query parameters. -/
theorem attempt_params_from_original_variant_witness :
    (((candidates [[("x", "1")]]).map Prod.fst =
      [[("x", "1")]].flatMap (fun v => List.replicate 6 v)) ∧
      [("x", "1")] = [("x", "1")]) :=
  attempt_params_from_original_variant htmlNet "k" "/p" [[("x", "1")]]
    [("x", "1")] "https://www.microburbs.com.au/report_generator/api" "xapikey"
    ⟨404, "text/html", .raw⟩
    "https://www.microburbs.com.au/report_generator/api/p"
    [("x", "1")] [("Accept", "application/json"), ("x-api-key", "k")]
    rfl (by decide)

end Microburbs
